import Mathlib

/-!
Shallow embedding of the astroNN model orchestration layer
(`astroNN/models/CNNBase.py` and `astroNN/models/NeuralNetMaster.py`)
together with proofs of the specified properties.

Conventions of the embedding:
* numpy index arrays become `List ℕ`; data matrices become `List (List ℚ)`;
  floating-point arithmetic is embedded as exact rational arithmetic `ℚ`;
* the random shuffle performed by `GeneratorMaster._get_exploration_order`
  is embedded by quantifying over an arbitrary permutation of
  `List.range n` (one per epoch for the infinite generator);
* stateful methods become explicit state-passing functions on records that
  mirror the Python attributes.
-/

namespace AstroNN

/-! ## Batch index generators (`CNNDataGenerator.generate`,
`CNNPredDataGenerator.generate`, CNNBase.py lines 45-62 and 86-103)

`generate` draws an exploration order (a shuffle of `range n`), then yields
`imax = n / batch_size` consecutive slices
`indexes[i*batch_size : (i+1)*batch_size]`, and repeats forever.

`Modelled from the spec:` `GeneratorMaster._get_exploration_order` (module
`astroNN.nn.utilities.generator`, not present under `src/`) is the
"reshuffling of dataset indices": it returns a permutation of the index
list.  We embed it as an arbitrary list `perm` with the hypothesis
`perm ~ List.range n`. -/

/-- The list of index batches one full pass (one traversal of the `for i in
range(imax)` loop) of `CNNDataGenerator.generate` yields, given the shuffled
exploration order `perm` of this pass.  Batch `i` is the slice
`perm[i*b : (i+1)*b]`; `imax = len(perm) / b` with integer division. -/
def generateEpochBatches (b : ℕ) (perm : List ℕ) : List (List ℕ) :=
  (List.range (perm.length / b)).map fun i => ((perm.drop (i * b)).take b)

/-- The `k`-th batch yielded by the infinite generator
`CNNDataGenerator.generate`, where `perms e` is the exploration order drawn
by `_get_exploration_order` at the start of epoch `e`.  The `while 1` loop
yields `imax = n / b` batches per epoch, so batch `k` is slice `k % imax`
of the epoch-`(k / imax)` order. -/
def generateNthBatch (b n : ℕ) (perms : ℕ → List ℕ) (k : ℕ) : List ℕ :=
  let imax := n / b
  ((perms (k / imax)).drop ((k % imax) * b)).take b

/-- The indices one full pass visits, in order: the concatenation of the
batches of the pass. -/
def epochVisited (b : ℕ) (perm : List ℕ) : List ℕ :=
  (generateEpochBatches b perm).flatten

theorem epochVisited_eq_take (b : ℕ) (perm : List ℕ) :
    epochVisited b perm = perm.take (perm.length / b * b) := by
  unfold epochVisited generateEpochBatches
  generalize perm.length / b = m
  induction m with
  | zero => simp
  | succ m ih =>
    rw [List.range_succ, List.map_append, List.flatten_append, ih]
    rw [Nat.succ_mul, List.take_add]
    simp

/-! ## Normalization round trip (`CNNBase.test`, lines 144-150 and 177-180)

The manual branch of `test` normalizes componentwise with the stored
statistics (`input_array -= self.input_mean; input_array /= self.input_std`)
and denormalizes the predictions with
(`predictions *= self.labels_std; predictions += self.labels_mean`). -/

/-- Componentwise `(x - m) / s`, the normalization applied in
`CNNBase.test` lines 148-150. -/
def normalizeManual (x m s : List ℚ) : List ℚ :=
  (x.zip (m.zip s)).map fun p => (p.1 - p.2.1) / p.2.2

/-- Componentwise `y * s + m`, the denormalization applied in
`CNNBase.test` lines 177-178. -/
def denormalizeManual (y m s : List ℚ) : List ℚ :=
  (y.zip (m.zip s)).map fun p => p.1 * p.2.2 + p.2.1

/-! ## Model state (`CNNBase.__init__` / `NeuralNetMaster.__init__`)

The hyperparameter attributes a `CNNBase` instance carries.  Numeric
hyperparameters that the embedded methods read or write are given concrete
types; the architecture-only attributes are kept as an opaque payload field
`arch` so that frame conditions about "all other attributes" are statable. -/

/-- `Modelled from the spec:` the `Normalizer` object
(`astroNN.nn.utilities.Normalizer`, not present under `src/`) is the
"component computing/applying mean-std scaling"; after fitting it carries
the mean/standard-deviation vectors `mean_labels` and `std_labels`. -/
structure Normalizer where
  mean_labels : List ℚ
  std_labels : List ℚ
deriving DecidableEq, Repr

/-- The attributes of a `CNNBase` instance that the embedded methods touch
(CNNBase.py lines 109-139 and NeuralNetMaster.py lines 24-77). -/
structure CNNState where
  batch_size : ℕ
  val_size : ℚ
  max_epochs : ℕ
  lr : ℚ
  dropout_rate : ℚ
  input_norm_mode : ℕ
  labels_norm_mode : ℕ
  input_normalizer : Option Normalizer
  labels_normalizer : Option Normalizer
  input_mean : List ℚ
  input_std : List ℚ
  labels_mean : List ℚ
  labels_std : List ℚ
  keras_model_compiled : Bool
  num_train : ℕ
  val_num : ℕ
  arch : ℕ
deriving DecidableEq, Repr

/-! ## `CNNBase.test` batch slicing (CNNBase.py lines 141-180)

`test` first overwrites `self.batch_size` with the number of rows when the
input is smaller than the batch size (lines 155-156), then splits the `n`
rows into a generator part of `(n // batch_size) * batch_size` rows and a
direct-`predict` remainder (lines 159-175), allocating an `n`-row
prediction array (line 162). -/

/-- How `CNNBase.test` slices `n` input rows. -/
structure TestSlicing where
  data_gen_shape : ℕ
  remainder_shape : ℕ
  predictions_rows : ℕ
deriving DecidableEq, Repr

/-- The state update and slicing plan of `CNNBase.test` on `n` input rows.
`Modelled from the spec:` `pre_testing_checklist_master` (line 142, not
present under `src/`) performs no hyperparameter mutation — the spec
describes `test` as normalize, slice, predict, denormalize only — so it is
embedded as the identity on the state.  The only mutation in `test` itself
is the `batch_size` overwrite of lines 155-156. -/
def test_step (s : CNNState) (n : ℕ) : CNNState × TestSlicing :=
  let s' : CNNState := if n < s.batch_size then { s with batch_size := n } else s
  let data_gen_shape := n / s'.batch_size * s'.batch_size
  ( s'
  , { data_gen_shape := data_gen_shape
    , remainder_shape := n - data_gen_shape
    , predictions_rows := n } )

/-! ## `CNNBase.compile` task dispatch (CNNBase.py lines 182-211) -/

/-- The task dispatch of `CNNBase.compile`: for a supported task it returns
the last-layer activation and the loss function it selects (lines 189-203);
for any other task it raises `RuntimeError` (line 205). -/
def compileTaskDispatch (task : String) : Except String (String × String) :=
  if task = "regression" then
    Except.ok ("linear", "mean_squared_error")
  else if task = "classification" then
    Except.ok ("softmax", "categorical_cross_entropy")
  else if task = "binary_classification" then
    Except.ok ("sigmoid", "binary_cross_entropy")
  else
    Except.error "Only regression, classification and binary_classification are supported"

/-! ## `CNNBase.pre_training_checklist_child` (CNNBase.py lines 213-239)

If `input_normalizer` is `None` the method builds fresh normalizers fitted
on the data and copies their statistics into `input_mean`/`input_std`/
`labels_mean`/`labels_std` (lines 217-224); otherwise it only applies the
existing normalizers to the data (lines 226-227) and touches no statistic.
Line 229-230: `compile` runs only when no compiled model exists yet.

`Modelled from the spec:` the fitting performed by
`Normalizer(mode).normalize` on first use (module `astroNN.nn.utilities`,
not present under `src/`) "computes mean/standard-deviation vectors from
the training data"; it is embedded as the function arguments `fitInput`
and `fitLabels`, and `denormalize` on an already-fitted normalizer only
reads the stored statistics ("they must not be recomputed, only
reloaded"), so the `else` branch leaves them unchanged. -/
def pre_training_checklist_child
    (fitInput fitLabels : List (List ℚ) → Normalizer)
    (s : CNNState) (input_data labels : List (List ℚ)) : CNNState :=
  let s₁ :=
    match s.input_normalizer with
    | none =>
        let inorm := fitInput input_data
        let lnorm := fitLabels labels
        { s with
          input_normalizer := some inorm
          labels_normalizer := some lnorm
          input_mean := inorm.mean_labels
          input_std := inorm.std_labels
          labels_mean := lnorm.mean_labels
          labels_std := lnorm.std_labels }
    | some _ => s
  if s₁.keras_model_compiled then s₁ else { s₁ with keras_model_compiled := true }

/-! ## Persisted artifacts (NeuralNetMaster.py lines 125-143,
CNNBase.py lines 241-261)

A training run writes files in two places: `pre_training_checklist_master`
creates the plain-text hyperparameter log, and
`post_training_checklist_child` saves the weights file, appends to and
closes the log, and dumps the parameter JSON. -/

/-- A file-system write performed by the training lifecycle. -/
inductive FileEvent where
  | create : String → FileEvent
  | append : String → FileEvent
deriving DecidableEq, Repr

/-- The file the event touches. -/
def FileEvent.fileName : FileEvent → String
  | FileEvent.create n => n
  | FileEvent.append n => n

/-- File writes of `pre_training_checklist_master` (NeuralNetMaster.py
line 125): `open(fullfilepath + 'hyperparameter.txt', 'w')`. -/
def preTrainingFileEvents : List FileEvent :=
  [FileEvent.create "hyperparameter.txt"]

/-- File writes of `post_training_checklist_child` (CNNBase.py lines
242-261): `keras_model.save(fullfilepath + 'model_weights.h5')`, the
`hyper_txt.write` of the dropout rate into the already-open log, and
`json.dump` into `fullfilepath + '/astroNN_model_parameter.json'`. -/
def postTrainingFileEvents : List FileEvent :=
  [ FileEvent.create "model_weights.h5"
  , FileEvent.append "hyperparameter.txt"
  , FileEvent.create "astroNN_model_parameter.json" ]

/-- The distinct files a full training run persists. -/
def trainingPersistedFiles : List String :=
  ((preTrainingFileEvents ++ postTrainingFileEvents).map FileEvent.fileName).dedup

/-- The keys of the `data` dict serialized to
`astroNN_model_parameter.json` (CNNBase.py lines 250-258), in source
order. -/
def astroNNModelParameterKeys : List String :=
  [ "id", "pool_length", "filterlen", "filternum", "hidden", "input"
  , "labels", "task", "input_mean", "labels_mean", "input_std"
  , "labels_std", "valsize", "targetname", "dropout_rate", "l2"
  , "input_norm_mode", "labels_norm_mode", "batch_size" ]

/-! ## `CNNBase.train` fit arguments (CNNBase.py lines 281-288) -/

/-- The scalar keyword arguments `train` passes to
`keras_model.fit_generator`. -/
structure FitArgs where
  steps_per_epoch : ℕ
  validation_steps : ℕ
  epochs : ℕ
  workers : ℕ
  use_multiprocessing : Bool
deriving DecidableEq, Repr

/-- The arguments `CNNBase.train` builds for `fit_generator`:
`steps_per_epoch = validation_steps = num_train // batch_size`,
`epochs = max_epochs`, `workers = os.cpu_count()` and
`use_multiprocessing = MULTIPROCESS_FLAG`, all forwarded unchanged. -/
def trainFitArgs (s : CNNState) (cpu_count : ℕ) (multiprocess_flag : Bool) : FitArgs :=
  { steps_per_epoch := s.num_train / s.batch_size
  , validation_steps := s.num_train / s.batch_size
  , epochs := s.max_epochs
  , workers := cpu_count
  , use_multiprocessing := multiprocess_flag }

/-! ## Validation split arithmetic (NeuralNetMaster.py lines 100-104,
CNNBase.py line 232) -/

/-- `val_num = int(input_data.shape[0] * self.val_size)`
(NeuralNetMaster.py line 103); Python `int()` truncates toward zero, which
for the nonnegative product is the floor. -/
def valNumCalc (n : ℕ) (val_size : ℚ) : ℕ := ⌊(n : ℚ) * val_size⌋.toNat

/-- `num_train = input_data.shape[0] - val_num` (NeuralNetMaster.py
line 104). -/
def numTrainCalc (n : ℕ) (val_size : ℚ) : ℕ := n - valNumCalc n val_size

/-- `Modelled from the spec:` `sklearn.model_selection.train_test_split`
(an external library call, CNNBase.py line 232) with a float `test_size`
splits `n` samples into `ceil(n * test_size)` test samples and the
remaining train samples.  Returns `(train_count, test_count)`. -/
def trainTestSplitCounts (n : ℕ) (test_size : ℚ) : ℕ × ℕ :=
  (n - ⌈(n : ℚ) * test_size⌉.toNat, ⌈(n : ℚ) * test_size⌉.toNat)

/-! ## Theorems -/

/-- C1 (counterexample): with `n = 3` inputs and batch size `b = 2`
(so `1 ≤ b ≤ n`) and the exploration order `[0, 1, 2]` (a permutation of
`range 3`), one full pass of `CNNDataGenerator.generate` visits only
`⌊3/2⌋ * 2 = 2` indices, so it does not cover every index in `0..2`
exactly once. -/
theorem generate_full_pass_not_always_covering :
    List.Perm [0, 1, 2] (List.range 3) ∧ 1 ≤ 2 ∧ 2 ≤ 3 ∧
    ¬ List.Perm (epochVisited 2 [0, 1, 2]) (List.range 3) := by
  decide

/-- C1 (amended): for every dataset of `n` inputs, every batch size `b`
with `1 ≤ b ≤ n` and every exploration order (permutation `perm` of
`range n`), one full pass of `CNNDataGenerator.generate` visits each index
at most once and visits only indices in `0..n-1`; it covers every index
exactly once precisely in the case `b ∣ n` (otherwise the last `n % b`
indices of the shuffled order are dropped). -/
theorem generate_full_pass_coverage (n b : ℕ) (perm : List ℕ)
    (hperm : List.Perm perm (List.range n)) (hb1 : 1 ≤ b) (hbn : b ≤ n) :
    (epochVisited b perm).Nodup ∧
    (∀ i ∈ epochVisited b perm, i < n) ∧
    (epochVisited b perm).length = n / b * b ∧
    (b ∣ n → List.Perm (epochVisited b perm) (List.range n)) := by
  have hlen : perm.length = n := by simpa using hperm.length_eq
  have hnodup : perm.Nodup := hperm.nodup_iff.mpr (List.nodup_range n)
  rw [epochVisited_eq_take, hlen]
  refine ⟨hnodup.sublist (List.take_sublist _ _), ?_, ?_, ?_⟩
  · intro i hi
    have : i ∈ perm := List.take_subset _ _ hi
    simpa using hperm.subset this
  · rw [List.length_take, hlen]
    exact min_eq_left (Nat.div_mul_le_self n b)
  · intro hdvd
    have htake : perm.take n = perm := by
      rw [← hlen]
      simp
    rw [Nat.div_mul_cancel hdvd, htake]
    exact hperm

/-- C1 (witness). -/
theorem generate_full_pass_coverage_witness :
    List.Perm [2, 0, 3, 1] (List.range 4) ∧ 1 ≤ 2 ∧ 2 ≤ 4 ∧
    ((epochVisited 2 [2, 0, 3, 1]).Nodup ∧
    (∀ i ∈ epochVisited 2 [2, 0, 3, 1], i < 4) ∧
    (epochVisited 2 [2, 0, 3, 1]).length = 4 / 2 * 2 ∧
    (2 ∣ 4 → List.Perm (epochVisited 2 [2, 0, 3, 1]) (List.range 4))) :=
  ⟨by decide, by decide, by decide,
   generate_full_pass_coverage 4 2 [2, 0, 3, 1] (by decide) (by decide) (by decide)⟩

/-- C6: for every dataset of `n` inputs and batch size `b` with
`1 ≤ b ≤ n`, the infinite generator yields a `k`-th batch for every
natural number `k`, each yielded batch holds exactly `b` indices, and the
batches of traversal epoch `e` (the `e`-th block of `⌊n/b⌋` batches) are
the consecutive slices of the fresh exploration order `perms e` drawn at
the start of that epoch. -/
theorem generate_infinite_fresh_epochs (n b : ℕ) (perms : ℕ → List ℕ)
    (hperm : ∀ e, List.Perm (perms e) (List.range n))
    (hb1 : 1 ≤ b) (hbn : b ≤ n) :
    (∀ k, (generateNthBatch b n perms k).length = b) ∧
    (∀ e i, i < n / b →
      generateNthBatch b n perms (n / b * e + i) = ((perms e).drop (i * b)).take b) := by
  have himax : 1 ≤ n / b := (Nat.one_le_div_iff hb1).mpr hbn
  constructor
  · intro k
    have hlen : (perms (k / (n / b))).length = n := by
      simpa using (hperm (k / (n / b))).length_eq
    have hmod : k % (n / b) < n / b := Nat.mod_lt _ himax
    have hbound : (k % (n / b)) * b + b ≤ n := by
      have h1 : (k % (n / b) + 1) * b ≤ (n / b) * b := Nat.mul_le_mul_right b hmod
      have h2 : (n / b) * b ≤ n := Nat.div_mul_le_self n b
      calc (k % (n / b)) * b + b = (k % (n / b) + 1) * b := by ring
        _ ≤ (n / b) * b := h1
        _ ≤ n := h2
    simp only [generateNthBatch]
    rw [List.length_take, List.length_drop, hlen]
    apply min_eq_left
    exact Nat.le_sub_of_add_le (by rwa [Nat.add_comm] at hbound)
  · intro e i hi
    have hdiv : (n / b * e + i) / (n / b) = e := by
      rw [Nat.mul_add_div himax, Nat.div_eq_of_lt hi, Nat.add_zero]
    have hmod : (n / b * e + i) % (n / b) = i := by
      rw [Nat.mul_add_mod, Nat.mod_eq_of_lt hi]
    simp only [generateNthBatch]
    rw [hdiv, hmod]

/-- C6 (witness). -/
theorem generate_infinite_fresh_epochs_witness :
    (∀ e : ℕ, List.Perm ([1, 0, 3, 2] : List ℕ) (List.range 4)) ∧ 1 ≤ 2 ∧ 2 ≤ 4 ∧
    ((∀ k, (generateNthBatch 2 4 (fun _ => [1, 0, 3, 2]) k).length = 2) ∧
     (∀ e i, i < 4 / 2 →
       generateNthBatch 2 4 (fun _ => [1, 0, 3, 2]) (4 / 2 * e + i) =
         (([1, 0, 3, 2] : List ℕ).drop (i * 2)).take 2)) :=
  ⟨fun _ => by decide, by decide, by decide,
   generate_infinite_fresh_epochs 4 2 (fun _ => [1, 0, 3, 2])
     (fun _ => (by decide : List.Perm ([1, 0, 3, 2] : List ℕ) (List.range 4)))
     (by decide) (by decide)⟩

/-- C2: normalization round-trips: for componentwise statistics `m`, `s`
of matching length with every component of `s` nonzero, denormalizing
(`y * s + m`) the normalization (`(x - m) / s`) of any vector `x`
returns `x` exactly, over exact rational arithmetic. -/
theorem normalize_denormalize_roundtrip (x m s : List ℚ)
    (hxm : x.length = m.length) (hms : m.length = s.length)
    (hs : ∀ c ∈ s, c ≠ 0) :
    denormalizeManual (normalizeManual x m s) m s = x := by
  induction x generalizing m s with
  | nil => simp [normalizeManual, denormalizeManual]
  | cons a x ih =>
    match m, s with
    | [], _ => simp at hxm
    | b :: m, [] => simp at hms
    | b :: m, c :: s =>
      have hc : c ≠ 0 := hs c (by simp)
      have htail := ih m s (by simpa using hxm) (by simpa using hms)
        (fun d hd => hs d (List.mem_cons_of_mem _ hd))
      simp only [normalizeManual, denormalizeManual, List.zip_cons_cons,
        List.map_cons] at htail ⊢
      rw [List.cons.injEq]
      exact ⟨by rw [div_mul_cancel₀ _ hc, sub_add_cancel], htail⟩

/-- C3: once the normalization statistics exist for a model instance
(`input_normalizer` is non-`None`), `pre_training_checklist_child` leaves
`input_mean`, `input_std`, `labels_mean` and `labels_std` unchanged, for
any data and any fitting functions: the statistics are never recomputed. -/
theorem pretraining_stats_never_recomputed
    (fitInput fitLabels : List (List ℚ) → Normalizer)
    (s : CNNState) (input_data labels : List (List ℚ))
    (h : s.input_normalizer ≠ none) :
    (pre_training_checklist_child fitInput fitLabels s input_data labels).input_mean = s.input_mean ∧
    (pre_training_checklist_child fitInput fitLabels s input_data labels).input_std = s.input_std ∧
    (pre_training_checklist_child fitInput fitLabels s input_data labels).labels_mean = s.labels_mean ∧
    (pre_training_checklist_child fitInput fitLabels s input_data labels).labels_std = s.labels_std := by
  unfold pre_training_checklist_child
  cases hs : s.input_normalizer with
  | none => exact absurd hs h
  | some nz => by_cases hk : s.keras_model_compiled <;> simp [hk]

/-- C3 (witness). -/
theorem pretraining_stats_never_recomputed_witness :
    ({ batch_size := 64, val_size := 1/10, max_epochs := 60, lr := 5/1000,
       dropout_rate := 0, input_norm_mode := 1, labels_norm_mode := 2,
       input_normalizer := some ⟨[7], [2]⟩, labels_normalizer := some ⟨[1], [3]⟩,
       input_mean := [7], input_std := [2], labels_mean := [1], labels_std := [3],
       keras_model_compiled := true, num_train := 90, val_num := 10,
       arch := 0 } : CNNState).input_normalizer ≠ none ∧
    ((pre_training_checklist_child (fun _ => ⟨[0], [1]⟩) (fun _ => ⟨[0], [1]⟩)
        { batch_size := 64, val_size := 1/10, max_epochs := 60, lr := 5/1000,
          dropout_rate := 0, input_norm_mode := 1, labels_norm_mode := 2,
          input_normalizer := some ⟨[7], [2]⟩, labels_normalizer := some ⟨[1], [3]⟩,
          input_mean := [7], input_std := [2], labels_mean := [1], labels_std := [3],
          keras_model_compiled := true, num_train := 90, val_num := 10,
          arch := 0 } [[5]] [[6]]).input_mean = [7] ∧
     (pre_training_checklist_child (fun _ => ⟨[0], [1]⟩) (fun _ => ⟨[0], [1]⟩)
        { batch_size := 64, val_size := 1/10, max_epochs := 60, lr := 5/1000,
          dropout_rate := 0, input_norm_mode := 1, labels_norm_mode := 2,
          input_normalizer := some ⟨[7], [2]⟩, labels_normalizer := some ⟨[1], [3]⟩,
          input_mean := [7], input_std := [2], labels_mean := [1], labels_std := [3],
          keras_model_compiled := true, num_train := 90, val_num := 10,
          arch := 0 } [[5]] [[6]]).input_std = [2] ∧
     (pre_training_checklist_child (fun _ => ⟨[0], [1]⟩) (fun _ => ⟨[0], [1]⟩)
        { batch_size := 64, val_size := 1/10, max_epochs := 60, lr := 5/1000,
          dropout_rate := 0, input_norm_mode := 1, labels_norm_mode := 2,
          input_normalizer := some ⟨[7], [2]⟩, labels_normalizer := some ⟨[1], [3]⟩,
          input_mean := [7], input_std := [2], labels_mean := [1], labels_std := [3],
          keras_model_compiled := true, num_train := 90, val_num := 10,
          arch := 0 } [[5]] [[6]]).labels_mean = [1] ∧
     (pre_training_checklist_child (fun _ => ⟨[0], [1]⟩) (fun _ => ⟨[0], [1]⟩)
        { batch_size := 64, val_size := 1/10, max_epochs := 60, lr := 5/1000,
          dropout_rate := 0, input_norm_mode := 1, labels_norm_mode := 2,
          input_normalizer := some ⟨[7], [2]⟩, labels_normalizer := some ⟨[1], [3]⟩,
          input_mean := [7], input_std := [2], labels_mean := [1], labels_std := [3],
          keras_model_compiled := true, num_train := 90, val_num := 10,
          arch := 0 } [[5]] [[6]]).labels_std = [3]) :=
  ⟨by decide,
   pretraining_stats_never_recomputed (fun _ => ⟨[0], [1]⟩) (fun _ => ⟨[0], [1]⟩)
     _ [[5]] [[6]] (by decide)⟩

/-- C2 (witness). -/
theorem normalize_denormalize_roundtrip_witness :
    ([3, 5] : List ℚ).length = ([1, 2] : List ℚ).length ∧
    ([1, 2] : List ℚ).length = ([2, 4] : List ℚ).length ∧
    (∀ c ∈ ([2, 4] : List ℚ), c ≠ 0) ∧
    denormalizeManual (normalizeManual [3, 5] [1, 2] [2, 4]) [1, 2] [2, 4] = [3, 5] :=
  ⟨by decide, by decide, by decide,
   normalize_denormalize_roundtrip [3, 5] [1, 2] [2, 4] (by decide) (by decide) (by decide)⟩

theorem sub_div_mul_self_eq_mod (n b : ℕ) : n - n / b * b = n % b := by
  have h4 : n / b * b + n % b = n := by
    rw [Nat.mul_comm]
    exact Nat.div_add_mod n b
  refine Nat.sub_eq_of_eq_add ?_
  rw [Nat.add_comm]
  exact h4.symm

/-- C4 (counterexample): with `n = 2` input rows and configured batch size
`b = 3`, the claim's accounting (`⌊n/b⌋*b = 0` generator rows and
`n mod b = 2` direct-predict rows) does not match the code: `test` first
overwrites `batch_size` with `2`, so the generator covers all `2` rows and
the direct-predict remainder is `0`. -/
theorem test_slicing_counterexample :
    ¬ (let s : CNNState :=
        { batch_size := 3, val_size := 1/10, max_epochs := 60, lr := 5/1000,
          dropout_rate := 0, input_norm_mode := 1, labels_norm_mode := 2,
          input_normalizer := none, labels_normalizer := none,
          input_mean := [], input_std := [], labels_mean := [], labels_std := [],
          keras_model_compiled := true, num_train := 0, val_num := 0, arch := 0 };
       (test_step s 2).2.data_gen_shape = 2 / 3 * 3 ∧
       (test_step s 2).2.remainder_shape = 2 % 3) := by
  decide

/-- C4 (amended): for every test set of `n ≥ 1` rows and configured batch
size `b ≥ 1`, with the effective batch size `b' = min b n` (because `test`
overwrites `batch_size` with `n` when `n < b`), `test` predicts the first
`⌊n/b'⌋*b'` rows through the batch generator and the remaining `n mod b'`
rows through a direct predict call, and the returned predictions array has
exactly one row for each of the `n` input rows. -/
theorem test_slicing_remainder (s : CNNState) (n : ℕ)
    (hn : 1 ≤ n) (hb : 1 ≤ s.batch_size) :
    (test_step s n).1.batch_size = min s.batch_size n ∧
    (test_step s n).2.data_gen_shape = n / min s.batch_size n * min s.batch_size n ∧
    (test_step s n).2.remainder_shape = n % min s.batch_size n ∧
    (test_step s n).2.data_gen_shape + (test_step s n).2.remainder_shape = n ∧
    (test_step s n).2.predictions_rows = n := by
  refine ⟨?_, ?_, ?_, ?_, rfl⟩ <;> by_cases h : n < s.batch_size
  · simp [test_step, h, min_eq_right h.le]
  · simp [test_step, h, min_eq_left (Nat.le_of_not_lt h)]
  · simp [test_step, h, min_eq_right h.le]
  · simp [test_step, h, min_eq_left (Nat.le_of_not_lt h)]
  · simp only [test_step, if_pos h, min_eq_right h.le]
    exact sub_div_mul_self_eq_mod n n
  · simp only [test_step, if_neg h, min_eq_left (Nat.le_of_not_lt h)]
    exact sub_div_mul_self_eq_mod n s.batch_size
  · simp only [test_step, if_pos h]
    exact Nat.add_sub_cancel' (Nat.div_mul_le_self n n)
  · simp only [test_step, if_neg h]
    exact Nat.add_sub_cancel' (Nat.div_mul_le_self n s.batch_size)

/-- C4 (witness). -/
theorem test_slicing_remainder_witness :
    (1 : ℕ) ≤ 5 ∧ (1 : ℕ) ≤ 2 ∧
    (let s : CNNState :=
        { batch_size := 2, val_size := 1/10, max_epochs := 60, lr := 5/1000,
          dropout_rate := 0, input_norm_mode := 1, labels_norm_mode := 2,
          input_normalizer := none, labels_normalizer := none,
          input_mean := [], input_std := [], labels_mean := [], labels_std := [],
          keras_model_compiled := true, num_train := 0, val_num := 0, arch := 0 };
     (test_step s 5).1.batch_size = min s.batch_size 5 ∧
     (test_step s 5).2.data_gen_shape = 5 / min s.batch_size 5 * min s.batch_size 5 ∧
     (test_step s 5).2.remainder_shape = 5 % min s.batch_size 5 ∧
     (test_step s 5).2.data_gen_shape + (test_step s 5).2.remainder_shape = 5 ∧
     (test_step s 5).2.predictions_rows = 5) :=
  ⟨by decide, by decide,
   test_slicing_remainder
     { batch_size := 2, val_size := 1/10, max_epochs := 60, lr := 5/1000,
       dropout_rate := 0, input_norm_mode := 1, labels_norm_mode := 2,
       input_normalizer := none, labels_normalizer := none,
       input_mean := [], input_std := [], labels_mean := [], labels_std := [],
       keras_model_compiled := true, num_train := 0, val_num := 0, arch := 0 }
     5 (by decide) (by decide)⟩

/-- C5: `compile` raises `RuntimeError` if and only if the configured task
is not one of `regression`, `classification`, `binary_classification`;
for each supported task it selects the matching last-layer activation and
loss function (linear/mean squared error, softmax/categorical cross
entropy, sigmoid/binary cross entropy) and does not raise. -/
theorem compile_task_dispatch_correct (task : String) :
    ((compileTaskDispatch task).isOk = true ↔
      task = "regression" ∨ task = "classification" ∨ task = "binary_classification") ∧
    compileTaskDispatch "regression" = Except.ok ("linear", "mean_squared_error") ∧
    compileTaskDispatch "classification" = Except.ok ("softmax", "categorical_cross_entropy") ∧
    compileTaskDispatch "binary_classification" = Except.ok ("sigmoid", "binary_cross_entropy") := by
  refine ⟨?_, rfl, rfl, rfl⟩
  unfold compileTaskDispatch
  by_cases h1 : task = "regression" <;> by_cases h2 : task = "classification" <;>
    by_cases h3 : task = "binary_classification" <;>
      simp [h1, h2, h3, Except.isOk, Except.toBool]

/-- C7: a training run persists exactly three artifacts: the model weights
file `model_weights.h5`, the JSON file `astroNN_model_parameter.json`
whose dict holds the hyperparameters and all four normalization statistics
(`input_mean`, `input_std`, `labels_mean`, `labels_std`), and the
plain-text hyperparameter log `hyperparameter.txt`. -/
theorem training_persists_three_artifacts :
    trainingPersistedFiles =
      ["model_weights.h5", "hyperparameter.txt", "astroNN_model_parameter.json"] ∧
    trainingPersistedFiles.length = 3 ∧
    "input_mean" ∈ astroNNModelParameterKeys ∧
    "input_std" ∈ astroNNModelParameterKeys ∧
    "labels_mean" ∈ astroNNModelParameterKeys ∧
    "labels_std" ∈ astroNNModelParameterKeys := by
  refine ⟨by decide, by decide, by decide, by decide, by decide, by decide⟩

/-- C8: `train` implements no concurrency of its own: for every model
state, cpu count and multiprocessing flag, the arguments it builds for the
framework's fit routine carry the cpu count as `workers` and the flag as
`use_multiprocessing`, both unchanged. -/
theorem train_forwards_concurrency_args (s : CNNState) (cpu_count : ℕ)
    (multiprocess_flag : Bool) :
    (trainFitArgs s cpu_count multiprocess_flag).workers = cpu_count ∧
    (trainFitArgs s cpu_count multiprocess_flag).use_multiprocessing = multiprocess_flag :=
  ⟨rfl, rfl⟩

/-- C9: `test` is not state-preserving on the model configuration: it
overwrites `batch_size` with the input row count exactly when the row
count is smaller than the configured `batch_size`, and leaves `batch_size`
unchanged otherwise; every other hyperparameter attribute is left
unchanged in both cases. -/
theorem test_frame_effect (s : CNNState) (n : ℕ) :
    ((test_step s n).1.batch_size = if n < s.batch_size then n else s.batch_size) ∧
    (test_step s n).1.val_size = s.val_size ∧
    (test_step s n).1.max_epochs = s.max_epochs ∧
    (test_step s n).1.lr = s.lr ∧
    (test_step s n).1.dropout_rate = s.dropout_rate ∧
    (test_step s n).1.input_norm_mode = s.input_norm_mode ∧
    (test_step s n).1.labels_norm_mode = s.labels_norm_mode ∧
    (test_step s n).1.input_normalizer = s.input_normalizer ∧
    (test_step s n).1.labels_normalizer = s.labels_normalizer ∧
    (test_step s n).1.input_mean = s.input_mean ∧
    (test_step s n).1.input_std = s.input_std ∧
    (test_step s n).1.labels_mean = s.labels_mean ∧
    (test_step s n).1.labels_std = s.labels_std ∧
    (test_step s n).1.keras_model_compiled = s.keras_model_compiled ∧
    (test_step s n).1.num_train = s.num_train ∧
    (test_step s n).1.val_num = s.val_num ∧
    (test_step s n).1.arch = s.arch := by
  by_cases h : n < s.batch_size <;> simp [test_step, h]

/-- C10: the validation fraction is applied twice: with `n ≥ 1` samples
and validation fraction `0 < val_size < 1`, `pre_training_checklist_master`
sets `val_num = ⌊n * val_size⌋` and `num_train = n - val_num` (so
`val_num + num_train = n`), and `pre_training_checklist_child` splits the
`num_train` indices again with the same fraction, so the training
generator receives strictly fewer than `num_train` samples. -/
theorem validation_split_applied_twice (n : ℕ) (v : ℚ)
    (hn : 1 ≤ n) (hv0 : 0 < v) (hv1 : v < 1) :
    valNumCalc n v = ⌊(n : ℚ) * v⌋.toNat ∧
    valNumCalc n v + numTrainCalc n v = n ∧
    1 ≤ numTrainCalc n v ∧
    (trainTestSplitCounts (numTrainCalc n v) v).1 < numTrainCalc n v := by
  have hval_lt : valNumCalc n v < n := by
    unfold valNumCalc
    have h1 : ⌊(n : ℚ) * v⌋ < (n : ℤ) := by
      rw [Int.floor_lt]
      push_cast
      have hn' : (0 : ℚ) < n := by exact_mod_cast hn
      nlinarith
    omega
  have hnt : 1 ≤ numTrainCalc n v := by
    unfold numTrainCalc
    omega
  refine ⟨rfl, by unfold numTrainCalc; omega, hnt, ?_⟩
  have hceil : 0 < ⌈((numTrainCalc n v : ℚ)) * v⌉ := by
    rw [Int.ceil_pos]
    have hm : (0 : ℚ) < (numTrainCalc n v : ℚ) := by exact_mod_cast hnt
    exact mul_pos hm hv0
  show numTrainCalc n v - ⌈((numTrainCalc n v : ℚ)) * v⌉.toNat < numTrainCalc n v
  omega

/-- C10 (witness). -/
theorem validation_split_applied_twice_witness :
    (1 : ℕ) ≤ 10 ∧ (0 : ℚ) < 1/10 ∧ (1/10 : ℚ) < 1 ∧
    (valNumCalc 10 (1/10) = ⌊(10 : ℚ) * (1/10)⌋.toNat ∧
     valNumCalc 10 (1/10) + numTrainCalc 10 (1/10) = 10 ∧
     1 ≤ numTrainCalc 10 (1/10) ∧
     (trainTestSplitCounts (numTrainCalc 10 (1/10)) (1/10)).1 < numTrainCalc 10 (1/10)) :=
  ⟨by norm_num, by norm_num, by norm_num,
   validation_split_applied_twice 10 (1/10) (by norm_num) (by norm_num) (by norm_num)⟩

end AstroNN
